import Mathlib

/-!
Verification development for the `psbeam` auto-focus repository.

The definitions below are a shallow embedding of `src/autoFocus/focus.py` and
`src/psbeam/morph.py`.  Python integers are modelled as `Int`, floating-point
scores as `Rat`, images as rectangular `List (List Int)` grids, and fallible
Python code (exceptions) as `Except PyErr`.  External collaborators (OpenCV
primitives, the EPICS motor layer, the camera) are modelled as parameters or
as traces of the calls issued to them.
-/

/-- The Python exception kinds raised by the embedded code. -/
inductive PyErr where
  | nameError
  | attributeError
  | keyError
  | valueError
  | assertionError
  deriving DecidableEq, Repr

/-- A value yielded by the position enumerator: Python yields either a bare
number (single-axis branch) or a tuple of numbers (multi-axis `zip` branch). -/
inductive PyPos where
  | int (n : Int)
  | tup (l : List Int)
  deriving DecidableEq, Repr

/-- The `positions` keyword argument of `Focus.__init__`: `None`, a single
`(start, stop, step)` triple, or a list of per-axis triples. -/
inductive PositionsSpec where
  | nonePos
  | single (start stop step : Int)
  | multi (axes : List (Int × Int × Int))
  deriving DecidableEq, Repr

/-- Length of a Python `range(a0, a0+b, ...)`-style count: `0` when `a ≤ 0`,
otherwise `(a-1)/b + 1` Euclidean steps (CPython computes the length of a
range this way from the magnitudes). -/
def pyCeilLen (a b : Int) : Nat :=
  if a ≤ 0 then 0 else (a - 1).toNat / b.toNat + 1

/-- Number of elements of Python 2 `range(start, stop, step)` (`step ≠ 0`). -/
def pyRangeLen (start stop step : Int) : Nat :=
  if 0 < step then pyCeilLen (stop - start) step
  else if step < 0 then pyCeilLen (start - stop) (-step)
  else 0

/-- The elements of Python 2 `range(start, stop, step)`:
`start, start+step, start+2*step, ...`. -/
def pyRangeList (start stop step : Int) : List Int :=
  (List.range (pyRangeLen start stop step)).map (fun i : Nat => start + step * (i : Int))

/-- Python 2 `range(start, stop, step)`: raises `ValueError` when `step = 0`,
otherwise returns the arithmetic-sequence list. -/
def pyRange (start stop step : Int) : Except PyErr (List Int) :=
  if step = 0 then .error .valueError else .ok (pyRangeList start stop step)

/-- Length of Python `zip(*ls)`: the minimum of the argument lengths
(`zip` with no arguments yields the empty list). -/
def pyZipLen (ls : List (List Int)) : Nat :=
  match ls with
  | [] => 0
  | l :: rest => rest.foldl (fun m r => min m r.length) l.length

/-- Python `zip(*ls)`: truncates to the shortest argument; the i-th tuple
collects the i-th element of every argument list. -/
def pyZip (ls : List (List Int)) : List (List Int) :=
  (List.range (pyZipLen ls)).map (fun i => ls.map (fun l => l.getD i 0))

/-- Run a fallible function over a list in order, stopping at the first
exception (the effect of a Python `for` loop that appends to a list). -/
def exList {α β : Type} (f : α → Except PyErr β) : List α → Except PyErr (List β)
  | [] => .ok []
  | a :: rest =>
    match f a with
    | .error ex => .error ex
    | .ok b =>
      match exList f rest with
      | .error ex => .error ex
      | .ok bs => .ok (b :: bs)

/-- `Focus._get_motor_iters` (focus.py lines 94-105): `None` for a falsy
`positions`; for a multi-axis spec, builds `range(*pos)` per axis and zips
them; for a single triple, yields `range(*positions)` directly. -/
def get_motor_iters (positions : PositionsSpec) : Except PyErr (Option (List PyPos)) :=
  match positions with
  | .nonePos => .ok none
  | .multi [] => .ok none
  | .single a b c =>
    match pyRange a b c with
    | .error ex => .error ex
    | .ok l => .ok (some (l.map PyPos.int))
  | .multi (ax :: rest) =>
    match exList (fun t => pyRange t.1 t.2.1 t.2.2) (ax :: rest) with
    | .error ex => .error ex
    | .ok ranges => .ok (some ((pyZip ranges).map PyPos.tup))

/-- The `motor_pv` argument of `Focus.__init__`: a single PV name string, a
list of PV name strings, or a pre-built `VirtualMotor` of known arity.
(A pre-built `Motor` object behaves like the string case for the checks
modelled here and is omitted.) -/
inductive MotorSpec where
  | pvStr (s : String)
  | pvList (pvs : List String)
  | virtual (numMotors : Nat)
  deriving DecidableEq, Repr

/-- The keyword-argument configuration read by `Focus.__init__`
(focus.py lines 35-46), with the source's defaults. -/
structure FocusConfig where
  motorPv : MotorSpec
  positions : PositionsSpec
  resize : Rat := 1
  kernel : Int × Int := (17, 17)
  sigma : Rat := 0
  average : Int := 3
  method : String := "scan"
  sharpness : String := "laplacian"
  imager : String := "default"

/-- A grayscale frame: a rectangular grid of integer pixel values. -/
abbrev Image := List (List Int)

/-- The OpenCV primitives used by `focus.py`.  OpenCV is a third-party
library (an external collaborator), so its operators are parameters of the
embedding rather than re-implementations. -/
structure CVPrims where
  resize : Rat → Rat → Image → Image
  gaussianBlur : Int × Int → Rat → Image → Image
  equalizeHist : Image → Image
  laplacian : Image → Image
  sobelX : Nat → Image → Image
  sobelY : Nat → Image → Image

/-- Modelled from the spec: `to_uint8` comes from `utils.cvUtils`, which is
repository code not present under `src/`; the spec describes it as conversion
to a canonical 8-bit representation, modelled as clamping each pixel to
`[0, 255]`. -/
def to_uint8 (img : Image) : Image :=
  img.map (fun row => row.map (fun p => max 0 (min 255 p)))

/-- `Focus.preprocess` (focus.py lines 107-123): 8-bit conversion, resize by
the configured factor, Gaussian blur with the configured kernel and sigma,
then histogram equalization. -/
def preprocess (cv : CVPrims) (cfg : FocusConfig) (image : Image) : Image :=
  let image8 := to_uint8 image
  let image_small := cv.resize cfg.resize cfg.resize image8
  let image_gblur := cv.gaussianBlur cfg.kernel cfg.sigma image_small
  let image_hequ := cv.equalizeHist image_gblur
  image_hequ

/-- All pixels of an image as rationals (the flattened array numpy reduces
over). -/
def pixList (img : Image) : List Rat :=
  (img.map (fun row => row.map (fun p => (p : Rat)))).flatten

/-- numpy `.mean()`: arithmetic mean of the flattened values. -/
def npMean (l : List Rat) : Rat := l.sum / l.length

/-- numpy `.var()`: population variance (mean squared deviation). -/
def npVar (l : List Rat) : Rat :=
  (l.map (fun x => (x - npMean l) ^ 2)).sum / l.length

/-- `Focus._laplacian_var` (focus.py lines 133-134): variance of the
Laplacian response. -/
def laplacian_var (cv : CVPrims) (img : Image) : Rat :=
  npVar (pixList (cv.laplacian img))

/-- `Focus._sobel_var` (focus.py lines 136-139): half the variance of each of
the horizontal and vertical Sobel responses (default `ksize` 5). -/
def sobel_var (cv : CVPrims) (img : Image) : Rat :=
  npVar (pixList (cv.sobelX 5 img)) / 2 + npVar (pixList (cv.sobelY 5 img)) / 2

/-- The `Focus._sharpness_methods` dictionary (focus.py lines 51-52); a
missing key raises `KeyError` at lookup. -/
def sharpness_methods (cv : CVPrims) (name : String) : Option (Image → Rat) :=
  if name = "sobel" then some (fun im => sobel_var cv im)
  else if name = "laplacian" then some (laplacian_var cv)
  else none

/-- `Focus.get_focus` (focus.py lines 141-143): computes
`image_prep = self.preprocess(image)` and then returns
`const * self._sharpness_methods[sharpness](image)` — the sharpness method is
applied to the raw `image` argument; `image_prep` is discarded, exactly as in
the source. -/
def get_focus (cv : CVPrims) (cfg : FocusConfig) (image : Image)
    (sharpness : String) (const : Rat) : Except PyErr Rat :=
  let _image_prep := preprocess cv cfg image
  match sharpness_methods cv sharpness with
  | none => .error .keyError
  | some m => .ok (const * m image)

/-- The names bound at module level in `focus.py`: its imports (lines 6-14)
and its module-level definitions.  Note the import at line 8 binds the
lowercase module name `motor`, not a class `Motor`, and nothing binds
`assert_equals` or `imager`. -/
def focusModuleGlobals : List String :=
  ["print_function", "Memory", "motor", "iterscan", "pv", "to_uint8",
   "minimize", "Iterable", "cv2", "np", "cachedir", "mem", "Focus",
   "VirtualMotor", "VirtualCamera", "isiterable"]

/-- The Python builtins referenced anywhere in `focus.py`; none of `val`,
`image`, `current_pos`, `get_ave_focus`, `Motor`, `assert_equals` or
`imager` is a builtin. -/
def pyBuiltins : List String :=
  ["len", "range", "zip", "iter", "isinstance", "print", "format",
   "ValueError", "AssertionError", "AttributeError", "NameError", "object"]

/-- The local names in scope when `Focus.get_image` evaluates line 126: its
parameters. -/
def getImageLocals : List String := ["self", "camera_pv"]

/-- `Focus.get_image` (focus.py lines 125-131): line 126 evaluates the bare
name `imager` (the instance attribute is `self.imager`), which is bound in
neither the local scope, nor the module globals, nor the builtins, so every
call raises `NameError`.  The acquisition itself is the camera collaborator,
modelled as a frame stream whose i-th read is `stream i`; it sits in the
dead branch of the name lookup. -/
def get_image (stream : Nat → Image) (i : Nat) : Except PyErr Image :=
  if "imager" ∈ getImageLocals ∨ "imager" ∈ focusModuleGlobals ∨ "imager" ∈ pyBuiltins then
    .ok (stream i)
  else .error .nameError

/-- `Focus.get_ave_focus` (focus.py lines 145-150): allocates
`np.empty([self.average])` (raises `ValueError` for a negative size), then
for each `i in range(self.average)` calls `self.get_image()` and scores the
result with `self.get_focus`, and returns the mean of the collected scores.
Each loop iteration's acquisition goes through `get_image`, whose
unbound-name error propagates out of the loop. -/
def get_ave_focus (cv : CVPrims) (cfg : FocusConfig) (stream : Nat → Image)
    (sharpness : String) (const : Rat) : Except PyErr Rat :=
  if cfg.average < 0 then .error .valueError
  else
    match exList (fun i =>
        match get_image stream i with
        | .error ex => .error ex
        | .ok image => get_focus cv cfg image sharpness const)
      (List.range cfg.average.toNat) with
    | .error ex => .error ex
    | .ok scores => .ok (npMean scores)

/-- The mutable `Focus` fields the search loop manipulates. -/
structure FocusState where
  method : String
  sharpness : String
  best_pos : Option PyPos
  best_focus : Rat
  deriving DecidableEq, Repr

/-- The state established by `Focus.__init__` (focus.py lines 44-48):
`best_pos = None` and `best_focus = 0`. -/
def initState (cfg : FocusConfig) : FocusState :=
  { method := cfg.method, sharpness := cfg.sharpness, best_pos := none, best_focus := 0 }

/-- Whether `isiterable(positions)` holds: `None` is not iterable; a triple or
a list of triples is. -/
def posIsIterable : PositionsSpec → Bool
  | .nonePos => false
  | .single _ _ _ => true
  | .multi _ => true

/-- `len(self.positions)`: 3 for a single `(start, stop, step)` triple, the
number of axes for a list of triples.  (Only evaluated on iterable values.) -/
def posLen : PositionsSpec → Nat
  | .nonePos => 0
  | .single _ _ _ => 3
  | .multi axes => axes.length

/-- The dead continuation of `Focus._check_arguments` (focus.py lines
63-83), as written: the per-variant arity checks on `positions`, then the
resize/sigma/average/method/sharpness asserts.  Each variant's first
statement is an `assert_equals(...)` call (lines 63, 65, 71), and
`assert_equals` is bound nowhere in `focus.py`, so even this continuation
would raise `NameError` at its first statement were it ever reached (the
same lookup guards line 78).  `camera_pv` and the kernel pair are strings
and 2-tuples by the types of the embedding, and
`isinstance(self.average, int)` holds by type. -/
def check_arguments_rest (cfg : FocusConfig) : Except PyErr Unit :=
  if "assert_equals" ∈ focusModuleGlobals ∨ "assert_equals" ∈ pyBuiltins then
    match cfg.motorPv with
    | .pvStr _ =>
      -- line 63: a single named motor needs a 3-element positions value
      if posLen cfg.positions ≠ 3 then .error .assertionError
      else checkNumericArguments cfg
    | .pvList pvs =>
      -- lines 65-69: one axis triple per PV; zipping a bare (start, stop,
      -- step) triple with the PV list pairs each PV with an int, and
      -- `assert isiterable(pos)` fails on an int
      if posLen cfg.positions ≠ pvs.length then .error .assertionError
      else
        match cfg.positions with
        | .multi _ => checkNumericArguments cfg
        | _ => .error .assertionError
    | .virtual n =>
      -- lines 71-74: iterating a bare triple yields ints, and
      -- `assert isiterable(pos)` fails on an int
      if posLen cfg.positions ≠ n then .error .assertionError
      else
        match cfg.positions with
        | .multi _ => checkNumericArguments cfg
        | _ => .error .assertionError
  else .error .nameError
where
  /-- Lines 76-83: resize, sigma, average and the two dispatch-table
  membership checks, exactly as written. -/
  checkNumericArguments (cfg : FocusConfig) : Except PyErr Unit :=
    if ¬ (0 < cfg.resize) then .error .assertionError
    else if ¬ (0 ≤ cfg.sigma) then .error .assertionError
    else if ¬ (0 < cfg.average) then .error .assertionError
    else if ¬ (cfg.method ∈ (["scan", "hillclimb"] : List String)) then .error .assertionError
    else if ¬ (cfg.sharpness ∈ (["sobel", "laplacian"] : List String)) then .error .assertionError
    else .ok ()

/-- `Focus._check_arguments` (focus.py lines 57-83) as it executes.  Line 59
asserts `isiterable(self.positions)`.  Then the unbound name `Motor` is
evaluated for every configuration: for a non-iterable `motor_pv` line 60's
`or` falls through to the isinstance tuple `(basestring, Motor,
VirtualMotor)` of line 61; for an iterable one that assert short-circuits
and line 62's tuple `(basestring, Motor)` is evaluated instead.  The import
at line 8 binds only the lowercase module `motor`, so either site raises
`NameError` and the checks of lines 63-83 never run for any configuration. -/
def check_arguments (cfg : FocusConfig) : Except PyErr Unit :=
  if ¬ posIsIterable cfg.positions then .error .assertionError
  else if "Motor" ∈ focusModuleGlobals ∨ "Motor" ∈ pyBuiltins then
    check_arguments_rest cfg
  else .error .nameError

/-- A call issued to the motor/EPICS collaborator layer. -/
inductive MotorOp where
  | pvGet (s : String)
  | motorCreate (s : String)
  | mv (p : PyPos)
  | wait
  deriving DecidableEq, Repr

/-- `Focus._get_motor_objs` (focus.py lines 85-92) with the collaborator
calls it issues.  A pre-built motor is returned as-is (no calls).  For a PV
name string, line 90 resolves the callee `Motor` before evaluating any
argument; `Motor` is unbound, so `NameError` is raised with no `.DESC` read
issued.  For a PV list, `VirtualMotor.__init__` (lines 218-221) first reads
every `.DESC` (line 219 completes its comprehension), then the
comprehension of line 220 resolves `Motor` per element: an empty list
succeeds vacuously, a nonempty one raises `NameError` after the reads. -/
def get_motor_objs (mp : MotorSpec) : List MotorOp × Except PyErr Unit :=
  match mp with
  | .virtual _ => ([], .ok ())
  | .pvStr s =>
    if "Motor" ∈ focusModuleGlobals ∨ "Motor" ∈ pyBuiltins then
      ([MotorOp.pvGet (s ++ ".DESC"), MotorOp.motorCreate s], .ok ())
    else ([], .error .nameError)
  | .pvList pvs =>
    if pvs.isEmpty then
      (pvs.map (fun p => MotorOp.pvGet (p ++ ".DESC")), .ok ())
    else if "Motor" ∈ focusModuleGlobals ∨ "Motor" ∈ pyBuiltins then
      (pvs.map (fun p => MotorOp.pvGet (p ++ ".DESC")) ++ pvs.map MotorOp.motorCreate, .ok ())
    else
      (pvs.map (fun p => MotorOp.pvGet (p ++ ".DESC")), .error .nameError)

/-- `Focus.__init__` (focus.py lines 35-55): stores the configuration,
initializes the best pair, runs `_check_arguments` (line 53), and only then
reaches `_get_motor_objs` (line 54).  The first component is the list of
collaborator calls issued; the second is the constructed state or the
exception.  Since `_check_arguments` raises for every configuration, the
success path is dead code. -/
def focus_init (cfg : FocusConfig) : List MotorOp × Except PyErr FocusState :=
  match check_arguments cfg with
  | .error ex => ([], .error ex)
  | .ok () =>
    match get_motor_objs cfg.motorPv with
    | (ops, .error ex) => (ops, .error ex)
    | (ops, .ok ()) => (ops, .ok (initState cfg))

/-- The entry of `Focus.focus` (focus.py lines 168-172): overwrite the stored
method and sharpness names with the call's arguments (unvalidated), leaving
every other field — including the best pair — untouched. -/
def focus_entry (st : FocusState) (method sharpness : String) : FocusState :=
  { st with method := method, sharpness := sharpness }

/-- The attributes of Python 2 list and tuple objects that `focus.py` could
reach: sequence methods.  Only iterator objects define `next()`; lists and
tuples (the possible values of `self.positions`) do not. -/
def seqAttrNames : List String :=
  ["append", "count", "extend", "index", "insert", "pop", "remove",
   "reverse", "sort"]

/-- The local names in scope at the top of `Focus.post_step`
(focus.py line 185): its two parameters. -/
def postStepLocals : List String := ["self", "scan"]

/-- The best-pair update of `Focus.post_step` (focus.py lines 189-191):
replace the best `(position, focus)` pair exactly when the trial's focus is
strictly greater than the current best. -/
def post_step_update (best : Option PyPos × Rat) (trial : PyPos × Rat) :
    Option PyPos × Rat :=
  if best.2 < trial.2 then (some trial.1, trial.2) else best

/-- `Focus.post_step` (focus.py lines 185-192) as it executes: line 186
looks up the attribute `next` on `self.positions` — a list or tuple, which
has no such attribute, so `AttributeError` is raised; had that succeeded,
line 187 would evaluate the names `image` and `current_pos` and line 188 the
name `get_ave_focus`, none of which is bound in scope (`NameError`).  The
update of lines 189-191 is therefore never reached. -/
def post_step (positions : PositionsSpec) : Except PyErr Unit :=
  if "next" ∈ seqAttrNames then
    if "image" ∈ postStepLocals ∨ "image" ∈ focusModuleGlobals ∨ "image" ∈ pyBuiltins then
      .ok ()
    else .error .nameError
  else
    match positions with
    | _ => .error .attributeError

/-- The methods defined on class `Focus` (focus.py lines 35-199). -/
def focusClassAttrs : List String :=
  ["__init__", "_check_arguments", "_get_motor_objs", "_get_motor_iters",
   "preprocess", "get_image", "_laplacian_var", "_sobel_var", "get_focus",
   "get_ave_focus", "_scan_focus", "_move_and_focus", "_hillclimb_focus",
   "focus", "pre_focus_hook", "post_focus_hook", "pre_step", "post_step",
   "pre_scan", "post_scan"]

/-- The instance attributes a `Focus` object carries after `__init__`
(focus.py lines 37-55). -/
def focusInstanceAttrs : List String :=
  ["motor_pv", "camera_pv", "positions", "resize", "kernel", "sigma",
   "average", "method", "sharpness", "imager", "best_pos", "best_focus",
   "_focus_methods", "_sharpness_methods", "_motors", "_motor_iters"]

/-- `Focus._move_and_focus` (focus.py lines 158-161): moves the motors,
waits for settling, then evaluates `self._get_ave_focus(const=-1)`.  The
attribute lookup searches the instance and then the class; `_get_ave_focus`
is defined on neither (the method is named `get_ave_focus`), so the lookup
raises `AttributeError` and the guarded call is a dead branch. -/
def move_and_focus (cv : CVPrims) (cfg : FocusConfig) (stream : Nat → Image)
    (position : PyPos) : List MotorOp × Except PyErr Rat :=
  ([MotorOp.mv position, MotorOp.wait],
    if "_get_ave_focus" ∈ focusInstanceAttrs ∨ "_get_ave_focus" ∈ focusClassAttrs then
      get_ave_focus cv cfg stream "laplacian" (-1)
    else .error .attributeError)

/-- The local names in scope when `VirtualMotor.mv` evaluates its `if`
condition (focus.py line 224): its two parameters.  `val` is bound only by
the `for` loop on line 225, which has not started yet. -/
def vmLocals : List String := ["self", "vals"]

/-- `VirtualMotor.mv` (focus.py lines 223-229): line 224 evaluates
`len(val)`; Python resolves `val` through the local, module and builtin
scopes, finds nothing, and raises `NameError` before any motor command.  The
success value would be the `(motor index, value)` commands of the loop on
lines 225-226. -/
def virtualMotor_mv (numMotors : Nat) (vals : List Int) :
    Except PyErr (List (Nat × Int)) :=
  if "val" ∈ vmLocals ∨ "val" ∈ focusModuleGlobals ∨ "val" ∈ pyBuiltins then
    if vals.length = numMotors then
      .ok ((List.range vals.length).zip vals)
    else .error .valueError
  else .error .nameError

/-- A morphological structuring element: `True` marks the member offsets
(`np.ones((5,5), np.uint8)` is the all-`True` 5×5 element). -/
abbrev Kernel := List (List Bool)

/-- Number of pixel rows. -/
def imgRows (img : Image) : Nat := img.length

/-- Number of pixel columns (images are rectangular grids). -/
def imgCols (img : Image) : Nat := (img.headD []).length

/-- The pixel at integer coordinates, when inside the image. -/
def getPx (img : Image) (r c : Int) : Option Int :=
  if 0 ≤ r ∧ r < (imgRows img : Int) ∧ 0 ≤ c ∧ c < (imgCols img : Int) then
    some ((img.getD r.toNat []).getD c.toNat 0)
  else none

/-- The offsets of the structuring element relative to its (centred) anchor. -/
def kerOffsets (ker : Kernel) : List (Int × Int) :=
  ((List.range ker.length).map (fun i =>
    (List.range ((ker.getD i []).length)).filterMap (fun j =>
      if (ker.getD i []).getD j false then
        some ((i : Int) - (ker.length / 2 : Nat), (j : Int) - ((ker.getD i []).length / 2 : Nat))
      else none))).flatten

/-- The in-bounds pixels covered by the structuring element anchored at a
point (out-of-bounds positions do not constrain an erosion or dilation,
matching OpenCV's default border for these operators). -/
def neighborhood (img : Image) (ker : Kernel) (r c : Nat) : List Int :=
  (kerOffsets ker).filterMap (fun d => getPx img ((r : Int) + d.1) ((c : Int) + d.2))

/-- Minimum of a pixel list (the empty case is unreachable for a nonempty
structuring element over a nonempty image). -/
def listMin : List Int → Int
  | [] => 0
  | x :: xs => xs.foldl min x

/-- Maximum of a pixel list. -/
def listMax : List Int → Int
  | [] => 0
  | x :: xs => xs.foldl max x

/-- One erosion: each pixel becomes the minimum over the structuring element. -/
def erode1 (ker : Kernel) (img : Image) : Image :=
  (List.range (imgRows img)).map (fun r =>
    (List.range (imgCols img)).map (fun c => listMin (neighborhood img ker r c)))

/-- One dilation: each pixel becomes the maximum over the structuring element. -/
def dilate1 (ker : Kernel) (img : Image) : Image :=
  (List.range (imgRows img)).map (fun r =>
    (List.range (imgCols img)).map (fun c => listMax (neighborhood img ker r c)))

/-- `cv2.erode(image, kernel, iterations=n)`: `n` successive erosions. -/
def cv2_erode (img : Image) (ker : Kernel) (iterations : Nat) : Image :=
  (erode1 ker)^[iterations] img

/-- `cv2.dilate(image, kernel, iterations=n)`: `n` successive dilations. -/
def cv2_dilate (img : Image) (ker : Kernel) (iterations : Nat) : Image :=
  (dilate1 ker)^[iterations] img

/-- `get_opening` (morph.py lines 27-53): `n_erode` erosions, then
`n_dilate` dilations. -/
def get_opening (image : Image) (n_erode n_dilate : Nat) (ker : Kernel) : Image :=
  let image_eroded := cv2_erode image ker n_erode
  let image_opened := cv2_dilate image_eroded ker n_dilate
  image_opened

/-- `get_closing` (morph.py lines 55-81): `n_dilate` dilations, then
`n_erode` erosions. -/
def get_closing (image : Image) (n_erode n_dilate : Nat) (ker : Kernel) : Image :=
  let image_dilated := cv2_dilate image ker n_dilate
  let image_closed := cv2_erode image_dilated ker n_erode
  image_closed

/-- 3×3 convolution with replicated (clamped) borders, used to instantiate
the OpenCV stencil operators on concrete inputs. -/
def conv3 (k : List (List Int)) (img : Image) : Image :=
  (List.range (imgRows img)).map (fun r =>
    (List.range (imgCols img)).map (fun c =>
      ((List.range 3).map (fun i =>
        ((List.range 3).map (fun j =>
          (k.getD i []).getD j 0 *
            ((img.getD (clampIdx (imgRows img) ((r : Int) + i - 1)) []).getD
              (clampIdx (imgCols img) ((c : Int) + j - 1)) 0))).sum)).sum))
where
  /-- Clamp an integer index into `[0, n)`. -/
  clampIdx (n : Nat) (i : Int) : Nat := (max 0 (min ((n : Int) - 1) i)).toNat

/-- The 3×3 discrete Laplacian stencil. -/
def laplacianK : List (List Int) := [[0, 1, 0], [1, -4, 1], [0, 1, 0]]

/-- The 3×3 horizontal Sobel stencil. -/
def sobelKx : List (List Int) := [[-1, 0, 1], [-2, 0, 2], [-1, 0, 1]]

/-- The 3×3 vertical Sobel stencil. -/
def sobelKy : List (List Int) := [[-1, -2, -1], [0, 0, 0], [1, 2, 1]]

/-- Count of pixels with value at most `p` (for the equalization CDF). -/
def countLE (img : Image) (p : Int) : Nat :=
  ((img.map (fun row => row.filter (fun q => q ≤ p))).flatten).length

/-- Histogram equalization by the scaled cumulative distribution. -/
def histEq (img : Image) : Image :=
  img.map (fun row => row.map (fun p =>
    (255 * (countLE img p : Int)) / (imgRows img * imgCols img : Nat)))

/-- A concrete instantiation of the external OpenCV collaborator, used to
evaluate the embedded focus code on explicit inputs: identity resize (the
witness configuration uses factor 1.0) and identity blur (the witness
configuration uses kernel `(1,1)`, whose Gaussian is the identity),
scaled-CDF histogram equalization, and 3×3 Laplacian/Sobel stencils with
replicated borders. -/
def cvWitness : CVPrims :=
  { resize := fun _ _ im => im
    gaussianBlur := fun _ _ im => im
    equalizeHist := histEq
    laplacian := conv3 laplacianK
    sobelX := fun _ im => conv3 sobelKx im
    sobelY := fun _ im => conv3 sobelKy im }

/-- A valid configuration for concrete evaluations: a single named motor, a
single-axis scan from 0 to 3, resize 1.0, kernel `(1,1)`, sigma 0. -/
def cfgW : FocusConfig :=
  { motorPv := MotorSpec.pvStr "SXR:EXP:MMS:01"
    positions := PositionsSpec.single 0 3 1
    resize := 1
    kernel := (1, 1)
    sigma := 0
    average := 3
    method := "scan"
    sharpness := "laplacian"
    imager := "default" }

/-- A concrete 2×2 frame whose Laplacian variance changes under
preprocessing. -/
def imgW : Image := [[0, 100], [50, 200]]

/-- Equality of `Except` results is decidable componentwise (used to evaluate
the embedded functions on concrete inputs). -/
instance {ε α : Type} [DecidableEq ε] [DecidableEq α] : DecidableEq (Except ε α) := fun x y =>
  match x, y with
  | .error e1, .error e2 =>
    if h : e1 = e2 then isTrue (by rw [h]) else isFalse (by intro hc; cases hc; exact h rfl)
  | .ok v1, .ok v2 =>
    if h : v1 = v2 then isTrue (by rw [h]) else isFalse (by intro hc; cases hc; exact h rfl)
  | .error _, .ok _ => isFalse (by intro hc; cases hc)
  | .ok _, .error _ => isFalse (by intro hc; cases hc)

theorem iterate_eq_foldl_replicate {α : Type} (f : α → α) :
    ∀ (n : Nat) (x : α), f^[n] x = (List.replicate n ()).foldl (fun a _ => f a) x := by
  intro n
  induction n with
  | zero => intro x; rfl
  | succ k ih =>
    intro x
    rw [List.replicate_succ, List.foldl_cons, Function.iterate_succ_apply]
    exact ih (f x)

theorem exList_ok_length {α β : Type} (f : α → Except PyErr β) :
    ∀ (l : List α) (res : List β), exList f l = .ok res → res.length = l.length := by
  intro l
  induction l with
  | nil =>
    intro res h
    cases h
    rfl
  | cons a rest ih =>
    intro res h
    unfold exList at h
    cases hfa : f a with
    | error ex => rw [hfa] at h; cases h
    | ok b =>
      rw [hfa] at h
      cases hrest : exList f rest with
      | error ex => rw [hrest] at h; cases h
      | ok bs =>
        rw [hrest] at h
        cases h
        simp [ih bs hrest]

theorem foldl_min_length_const (L : Nat) :
    ∀ (rs : List (List Int)), (∀ r ∈ rs, r.length = L) →
      rs.foldl (fun m r => min m r.length) L = L := by
  intro rs
  induction rs with
  | nil => intro _; rfl
  | cons r rest ih =>
    intro h
    have hr : r.length = L := h r (by simp)
    rw [List.foldl_cons, hr, min_self]
    exact ih (fun x hx => h x (by simp [hx]))

theorem pyCeilLen_eq_ceil (a b : Int) (hb : 0 < b) :
    pyCeilLen a b = ⌈(a : ℚ) / (b : ℚ)⌉₊ := by
  unfold pyCeilLen
  by_cases ha : a ≤ 0
  · rw [if_pos ha]
    symm
    rw [Nat.ceil_eq_zero]
    apply div_nonpos_of_nonpos_of_nonneg
    · exact_mod_cast ha
    · positivity
  · rw [if_neg ha]
    push_neg at ha
    have hbq : (0 : ℚ) < (b : ℚ) := by exact_mod_cast hb
    have hna : ((a - 1).toNat : Int) = a - 1 := Int.toNat_of_nonneg (by omega)
    have hba : (b.toNat : Int) = b := Int.toNat_of_nonneg hb.le
    have hbn0 : 0 < b.toNat := by omega
    have heuc := Nat.div_add_mod (a - 1).toNat b.toNat
    have hmod : (a - 1).toNat % b.toNat < b.toNat := Nat.mod_lt _ hbn0
    have heqZ : (b : Int) * ((a - 1).toNat / b.toNat : Nat) + ((a - 1).toNat % b.toNat : Nat)
        = a - 1 := by
      rw [← hna, ← hba]
      exact_mod_cast heuc
    have hr0 : (0 : Int) ≤ ((a - 1).toNat % b.toNat : Nat) := Int.ofNat_nonneg _
    have hrb : (((a - 1).toNat % b.toNat : Nat) : Int) < b := by
      rw [← hba]; exact_mod_cast hmod
    have hexp : (b : Int) * (((a - 1).toNat / b.toNat : Nat) + 1)
        = b * ((a - 1).toNat / b.toNat : Nat) + b := by ring
    have hlow : (b : Int) * ((a - 1).toNat / b.toNat : Nat) < a := by linarith
    have hhigh : a ≤ (b : Int) * (((a - 1).toNat / b.toNat : Nat) + 1) := by linarith
    symm
    rw [Nat.ceil_eq_iff (Nat.succ_ne_zero _)]
    have hlow2 : (((a - 1).toNat / b.toNat : Nat) : Int) * b < a := by
      rwa [mul_comm] at hlow
    have hhigh2 : a ≤ ((((a - 1).toNat / b.toNat : Nat) : Int) + 1) * b := by
      rwa [mul_comm] at hhigh
    constructor
    · rw [Nat.succ_sub_one, lt_div_iff₀ hbq]
      have h3 : (((((a - 1).toNat / b.toNat : Nat) : Int) * b : Int) : ℚ) < ((a : Int) : ℚ) :=
        Int.cast_lt.mpr hlow2
      push_cast at h3
      exact h3
    · rw [div_le_iff₀ hbq]
      have h4 : ((a : Int) : ℚ)
          ≤ ((((((a - 1).toNat / b.toNat : Nat) : Int) + 1) * b : Int) : ℚ) :=
        Int.cast_le.mpr hhigh2
      push_cast at h4
      push_cast
      exact h4

theorem pyRangeLen_eq_ceil (s e st : Int) (hst : st ≠ 0) :
    pyRangeLen s e st = ⌈((e : ℚ) - (s : ℚ)) / (st : ℚ)⌉₊ := by
  rcases lt_trichotomy st 0 with hlt | heq | hgt
  · unfold pyRangeLen
    rw [if_neg (by omega), if_pos hlt]
    rw [pyCeilLen_eq_ceil (s - e) (-st) (by omega)]
    congr 1
    push_cast
    rw [show (s : ℚ) - e = -((e : ℚ) - s) by ring, neg_div_neg_eq]
  · exact absurd heq hst
  · unfold pyRangeLen
    rw [if_pos hgt]
    rw [pyCeilLen_eq_ceil (e - s) st hgt]
    congr 1
    push_cast
    ring

/-- Claim C9: `get_opening` applies exactly `n_erode` erosions followed by
`n_dilate` dilations, and `get_closing` applies exactly `n_dilate` dilations
followed by `n_erode` erosions; both are pure functions of their arguments. -/
theorem morphology_composition (image : Image) (n_erode n_dilate : Nat) (ker : Kernel) :
    get_opening image n_erode n_dilate ker =
      (List.replicate n_dilate ()).foldl (fun im _ => dilate1 ker im)
        ((List.replicate n_erode ()).foldl (fun im _ => erode1 ker im) image)
    ∧ get_closing image n_erode n_dilate ker =
      (List.replicate n_erode ()).foldl (fun im _ => erode1 ker im)
        ((List.replicate n_dilate ()).foldl (fun im _ => dilate1 ker im) image) := by
  constructor
  · simp only [get_opening, cv2_erode, cv2_dilate, iterate_eq_foldl_replicate]
  · simp only [get_closing, cv2_erode, cv2_dilate, iterate_eq_foldl_replicate]

/-- Claim C10: every call of `VirtualMotor.mv` evaluates the unbound name
`val` in its length check and raises `NameError` before issuing any motor
command, for every input list. -/
theorem virtualMotor_mv_raises_nameError (numMotors : Nat) (vals : List Int) :
    virtualMotor_mv numMotors vals = .error .nameError := by
  unfold virtualMotor_mv
  rw [if_neg (by decide)]

/-- Claim C2 (code bug): the strict greater-than update of
`Focus.post_step` lines 189-191 would report the first-seen maximum on the
score sequence `[1, 5, 3, 5]`, but `post_step` itself raises
`AttributeError` at line 186 (`self.positions.next()` on a list/tuple) for
every positions value, before any comparison can run. -/
theorem post_step_crashes_before_best_update :
    (∀ positions : PositionsSpec, post_step positions = .error .attributeError)
    ∧ List.foldl post_step_update (none, 0)
        [(PyPos.int 10, 1), (PyPos.int 20, 5), (PyPos.int 30, 3), (PyPos.int 40, 5)]
      = (some (PyPos.int 20), 5) := by
  constructor
  · intro positions
    unfold post_step
    rw [if_neg (by decide)]
  · decide

/-- Counterexample to claim C4: `focus()` does not reset the running best —
after a `focus` entry on a state carrying a previous run's best pair, the
pair is still there (and the constructed initial score is 0, not −∞). -/
theorem focus_entry_keeps_previous_best :
    (focus_entry
        { method := "scan", sharpness := "laplacian",
          best_pos := some (PyPos.int 3), best_focus := 7 } "scan" "laplacian").best_pos
      = some (PyPos.int 3)
    ∧ (focus_entry
        { method := "scan", sharpness := "laplacian",
          best_pos := some (PyPos.int 3), best_focus := 7 } "scan" "laplacian").best_focus
      = 7 :=
  ⟨rfl, rfl⟩

/-- Claim C4 as amended: the running best starts as `(None, 0)` at
construction, and the entry of `focus()` leaves the best pair untouched, so
state from a previous run persists into a later run. -/
theorem best_state_init_and_not_reset :
    (∀ cfg : FocusConfig,
      (initState cfg).best_pos = none ∧ (initState cfg).best_focus = 0)
    ∧ (∀ (st : FocusState) (m s : String),
      (focus_entry st m s).best_pos = st.best_pos
      ∧ (focus_entry st m s).best_focus = st.best_focus) :=
  ⟨fun _ => ⟨rfl, rfl⟩, fun _ _ _ => ⟨rfl, rfl⟩⟩

/-- Claim C6 (code bug): the hill-climb objective `Focus._move_and_focus`
issues the move and wait, but then looks up `self._get_ave_focus`, which is
defined neither on the instance nor on the class (the method is named
`get_ave_focus`), so every objective evaluation raises `AttributeError` and
the minimizer can never produce a converged position. -/
theorem hillclimb_objective_attribute_error :
    ("_get_ave_focus" ∉ focusInstanceAttrs ∧ "_get_ave_focus" ∉ focusClassAttrs
      ∧ "get_ave_focus" ∈ focusClassAttrs)
    ∧ ∀ (cv : CVPrims) (cfg : FocusConfig) (stream : Nat → Image) (position : PyPos),
        (move_and_focus cv cfg stream position).2 = .error .attributeError
        ∧ (move_and_focus cv cfg stream position).1 = [MotorOp.mv position, MotorOp.wait] := by
  refine ⟨by decide, ?_⟩
  intro cv cfg stream position
  constructor
  · show (if "_get_ave_focus" ∈ focusInstanceAttrs ∨ "_get_ave_focus" ∈ focusClassAttrs then
        get_ave_focus cv cfg stream "laplacian" (-1)
      else .error .attributeError) = .error .attributeError
    rw [if_neg (by decide)]
  · rfl

/-- Claim C1 (code bug): for every OpenCV instantiation, configuration and
image, `get_focus` returns the sharpness metric of the raw input frame
(`image_prep` is computed and discarded), and on the concrete witness
instantiation the result differs from the metric of the preprocessed image. -/
theorem get_focus_scores_raw_image :
    (∀ (cv : CVPrims) (cfg : FocusConfig) (image : Image) (const : Rat),
        get_focus cv cfg image "laplacian" const = .ok (const * laplacian_var cv image))
    ∧ get_focus cvWitness cfgW imgW "laplacian" 1
        ≠ .ok (laplacian_var cvWitness (preprocess cvWitness cfgW imgW)) := by
  constructor
  · intro cv cfg image const
    rfl
  · have hraw : cvWitness.laplacian imgW = [[150, 0], [100, -250]] := by decide
    have hpre : preprocess cvWitness cfgW imgW = [[63, 191], [127, 255]] := by decide
    have hprelap : cvWitness.laplacian [[63, 191], [127, 255]] = [[192, -64], [64, -192]] := by
      decide
    have hpix1 : pixList [[150, 0], [100, -250]] = [150, 0, 100, -250] := by decide
    have hpix2 : pixList [[192, -64], [64, -192]] = [192, -64, 64, -192] := by decide
    have hv1 : laplacian_var cvWitness imgW = 23750 := by
      unfold laplacian_var
      rw [hraw, hpix1]
      norm_num [npVar, npMean, List.sum_cons, List.sum_nil, List.map_cons, List.map_nil]
    have hv2 : laplacian_var cvWitness (preprocess cvWitness cfgW imgW) = 20480 := by
      unfold laplacian_var
      rw [hpre, hprelap, hpix2]
      norm_num [npVar, npMean, List.sum_cons, List.sum_nil, List.map_cons, List.map_nil]
    have hL : get_focus cvWitness cfgW imgW "laplacian" 1
        = .ok (1 * laplacian_var cvWitness imgW) := rfl
    rw [hL, hv1, hv2]
    simp only [one_mul, ne_eq, Except.ok.injEq]
    norm_num

/-- Claim C7 (code bug): the loop of `get_ave_focus` makes one `get_image`
acquisition and one `get_focus` score per sample and returns the mean of
the scores — the shape the claim describes — but `get_image` (focus.py
line 126) evaluates the unbound bare name `imager` (the instance attribute
is `self.imager`) and raises `NameError` on every call, so with any
positive sample count the very first acquisition crashes the computation:
no image is ever scored and no mean is ever returned. -/
theorem get_ave_focus_crashes_on_first_acquisition :
    ("imager" ∉ getImageLocals ∧ "imager" ∉ focusModuleGlobals ∧ "imager" ∉ pyBuiltins)
    ∧ (∀ (stream : Nat → Image) (i : Nat), get_image stream i = .error .nameError)
    ∧ (∀ (cv : CVPrims) (cfg : FocusConfig) (stream : Nat → Image) (s : String) (c : Rat),
        1 ≤ cfg.average → get_ave_focus cv cfg stream s c = .error .nameError) := by
  refine ⟨by decide, ?_, ?_⟩
  · intro stream i
    unfold get_image
    rw [if_neg (by decide)]
  · intro cv cfg stream s c h
    unfold get_ave_focus
    rw [if_neg (by omega)]
    obtain ⟨k, hk⟩ : ∃ k, cfg.average.toNat = k + 1 := ⟨cfg.average.toNat - 1, by omega⟩
    rw [hk, List.range_succ_eq_map]
    rfl

theorem checkNumeric_ok_iff (cfg : FocusConfig) :
    check_arguments_rest.checkNumericArguments cfg = .ok ()
    ↔ (0 < cfg.resize ∧ 0 ≤ cfg.sigma ∧ 0 < cfg.average
        ∧ cfg.method ∈ (["scan", "hillclimb"] : List String)
        ∧ cfg.sharpness ∈ (["sobel", "laplacian"] : List String)) := by
  unfold check_arguments_rest.checkNumericArguments
  split_ifs <;> simp_all

theorem check_arguments_always_raises (cfg : FocusConfig) :
    check_arguments cfg = .error .assertionError
    ∨ check_arguments cfg = .error .nameError := by
  unfold check_arguments
  by_cases h : posIsIterable cfg.positions
  · right
    rw [if_neg (by simp [h]), if_neg (by decide)]
  · left
    rw [if_pos h]

/-- Claim C5 (code bug): the checks the claim describes are written at
lines 76-83 exactly as claimed (final conjuncts) and `_check_arguments`
(line 53) is invoked before `_get_motor_objs` (line 54) — but the isinstance
tuples of lines 60-62 evaluate the unbound name `Motor` first, so every
construction, with valid and invalid values alike, raises `NameError`
before any configuration value is validated; no construction ever succeeds,
no motor object or collaborator call is ever issued via a single PV name
(`Motor` at line 90 is also unbound), and the scorer as written fails with
`KeyError` at first use of an unrecognized metric name. -/
theorem construction_never_validates_config :
    ("Motor" ∉ focusModuleGlobals ∧ "Motor" ∉ pyBuiltins
      ∧ "assert_equals" ∉ focusModuleGlobals ∧ "assert_equals" ∉ pyBuiltins)
    ∧ (∀ cfg : FocusConfig, posIsIterable cfg.positions = true →
        check_arguments cfg = .error .nameError)
    ∧ (∀ cfg : FocusConfig,
        (focus_init cfg).1 = [] ∧ ∀ st : FocusState, (focus_init cfg).2 ≠ .ok st)
    ∧ (∀ s : String, get_motor_objs (.pvStr s) = ([], .error .nameError))
    ∧ (∀ cfg : FocusConfig,
        check_arguments_rest.checkNumericArguments cfg = .ok ()
        ↔ (0 < cfg.resize ∧ 0 ≤ cfg.sigma ∧ 0 < cfg.average
            ∧ cfg.method ∈ (["scan", "hillclimb"] : List String)
            ∧ cfg.sharpness ∈ (["sobel", "laplacian"] : List String)))
    ∧ get_focus cvWitness cfgW imgW "gradient" 1 = .error .keyError := by
  refine ⟨by decide, ?_, ?_, ?_, checkNumeric_ok_iff, rfl⟩
  · intro cfg h
    unfold check_arguments
    rw [if_neg (by simp [h]), if_neg (by decide)]
  · intro cfg
    rcases check_arguments_always_raises cfg with h | h <;>
      · unfold focus_init
        rw [h]
        exact ⟨rfl, by simp⟩
  · intro s
    show (if "Motor" ∈ focusModuleGlobals ∨ "Motor" ∈ pyBuiltins then
        ([MotorOp.pvGet (s ++ ".DESC"), MotorOp.motorCreate s], Except.ok ())
      else ([], Except.error PyErr.nameError))
      = ([], Except.error PyErr.nameError)
    rw [if_neg (by decide)]

/-- Counterexample to claim C8: the single-axis enumerator yields bare
scalar values, not 1-tuples — on `(0, 3, 1)` it yields `0, 1, 2`, and a bare
value is not a 1-tuple. -/
theorem single_axis_yields_bare_values :
    get_motor_iters (.single 0 3 1) = .ok (some [PyPos.int 0, PyPos.int 1, PyPos.int 2])
    ∧ PyPos.int 0 ≠ PyPos.tup [0] := by
  constructor
  · decide
  · decide

/-- Claim C8 as amended: for every single-axis spec with step ≠ 0 the
enumerator yields exactly `range(start, stop, step)` — the arithmetic
sequence of length `⌈(stop − start)/step⌉₊` with no duplicates, whose i-th
element is `start + step·i` — as bare scalar values (not wrapped in
1-tuples). -/
theorem single_axis_enumeration (s e st : Int) (hst : st ≠ 0) :
    get_motor_iters (.single s e st) = .ok (some ((pyRangeList s e st).map PyPos.int))
    ∧ (pyRangeList s e st).length = ⌈((e : ℚ) - (s : ℚ)) / (st : ℚ)⌉₊
    ∧ (pyRangeList s e st).Nodup
    ∧ ∀ i : Nat, i < (pyRangeList s e st).length →
        (pyRangeList s e st).getD i 0 = s + st * i := by
  refine ⟨?_, ?_, ?_, ?_⟩
  · show (match pyRange s e st with
      | .error ex => Except.error ex
      | .ok l => .ok (some (l.map PyPos.int)))
      = .ok (some ((pyRangeList s e st).map PyPos.int))
    unfold pyRange
    rw [if_neg hst]
  · unfold pyRangeList
    rw [List.length_map, List.length_range]
    exact pyRangeLen_eq_ceil s e st hst
  · unfold pyRangeList
    apply List.Nodup.map _ (List.nodup_range _)
    intro i j hij
    simp only at hij
    have h2 : st * (i : Int) = st * (j : Int) := by linarith
    have h3 : (i : Int) = (j : Int) := mul_left_cancel₀ hst h2
    exact_mod_cast h3
  · intro i hi
    unfold pyRangeList at hi ⊢
    rw [List.length_map, List.length_range] at hi
    rw [List.getD_eq_getElem _ _ (by simp [hi]), List.getElem_map, List.getElem_range]

/-- Witness for C8: the amended enumeration at the concrete spec (0, 3, 1). -/
theorem single_axis_enumeration_witness :
    get_motor_iters (.single 0 3 1) = .ok (some ((pyRangeList 0 3 1).map PyPos.int)) :=
  (single_axis_enumeration 0 3 1 (by decide)).1

/-- Counterexample to claim C3: with axis ranges of unequal lengths (2 and
3 here), the enumerator does not raise any error — `zip` silently truncates
to the shortest range and two positions are yielded. -/
theorem unequal_axis_ranges_truncate :
    get_motor_iters (.multi [(0, 2, 1), (0, 3, 1)])
      = .ok (some [PyPos.tup [0, 0], PyPos.tup [1, 1]]) := by decide

/-- Claim C3 as amended: for equal-length axis ranges of length L the
enumerator yields exactly L tuples, tuple i collecting element i of every
axis range (zipped lockstep, not a cartesian product); for unequal lengths
it does not fail but silently truncates to the shortest range. -/
theorem multi_axis_lockstep_enumeration
    (axes : List (Int × Int × Int)) (ranges : List (List Int)) (L : Nat)
    (hne : axes ≠ [])
    (hok : exList (fun t => pyRange t.1 t.2.1 t.2.2) axes = .ok ranges)
    (hlen : ∀ r ∈ ranges, r.length = L) :
    get_motor_iters (.multi axes) = .ok (some ((pyZip ranges).map PyPos.tup))
    ∧ (pyZip ranges).length = L
    ∧ ∀ i : Nat, i < L → (pyZip ranges).getD i [] = ranges.map (fun r => r.getD i 0) := by
  have hzl : pyZipLen ranges = L := by
    have hrl : ranges.length = axes.length := exList_ok_length _ axes ranges hok
    cases hr : ranges with
    | nil =>
      exfalso
      cases axes with
      | nil => exact hne rfl
      | cons a t => rw [hr] at hrl; simp at hrl
    | cons r0 rs =>
      have h0 : r0.length = L := hlen r0 (by rw [hr]; simp)
      show List.foldl (fun m r => min m r.length) r0.length rs = L
      rw [h0]
      exact foldl_min_length_const L rs (fun x hx => hlen x (by rw [hr]; simp [hx]))
  refine ⟨?_, ?_, ?_⟩
  · cases axes with
    | nil => exact absurd rfl hne
    | cons ax rest =>
      show (match exList (fun t => pyRange t.1 t.2.1 t.2.2) (ax :: rest) with
        | .error ex => Except.error ex
        | .ok rgs => .ok (some ((pyZip rgs).map PyPos.tup)))
        = .ok (some ((pyZip ranges).map PyPos.tup))
      rw [hok]
  · unfold pyZip
    rw [List.length_map, List.length_range, hzl]
  · intro i hi
    unfold pyZip
    rw [List.getD_eq_getElem _ _ (by simp [hzl, hi]), List.getElem_map, List.getElem_range]

/-- Witness for C3: two axes with equal-length ranges (length 2) enumerate
two lockstep tuples. -/
theorem multi_axis_lockstep_enumeration_witness :
    get_motor_iters (.multi [(0, 2, 1), (5, 7, 1)])
      = .ok (some ((pyZip [[0, 1], [5, 6]]).map PyPos.tup)) :=
  (multi_axis_lockstep_enumeration [(0, 2, 1), (5, 7, 1)] [[0, 1], [5, 6]] 2
    (by decide) (by decide) (by decide)).1
